import Mathlib

/-!
# Library catalogue controllers: Genre and BookInstance handlers

A shallow embedding of `controllers/genreController.js` and
`controllers/bookInstanceController.js`.

* A handler is a function from the document store and the request to an
  `Outcome`: the store after the handler ran and the ordered list of calls the
  handler made on `res` and `next`.
* `asyncHandler` forwards a rejected handler promise to `next`, so an exception
  raised inside a handler shows up as a trailing `Action.next`.
* The models (`models/genre.js`, `models/book.js`, `models/bookInstance.js`) and
  the libraries behind them are not part of the two controller files.  Entities
  follow the data model of the specification, and the behaviour of library
  functions that cannot be read off the controllers is collected in `Env`.
-/

namespace LocalLibrary

/-! ## Data model -/

/-- Identifier of a stored document.  Route parameters are taken after the
store has accepted them as identifiers; a malformed route parameter is a
store-layer fault that never reaches the handler logic modelled here. -/
structure ObjectId where
  hex : String
deriving DecidableEq, Repr

/-- Modelled from the spec: the Genre entity of `models/genre.js`, an
identifier and a name. -/
structure Genre where
  _id : ObjectId
  name : String
deriving DecidableEq, Repr

/-- Modelled from the spec: the Book entity of `models/book.js`; `genre` holds
the references to Genre documents. -/
structure Book where
  _id : ObjectId
  title : String
  summary : String
  author : ObjectId
  genre : List ObjectId
deriving DecidableEq, Repr

/-- Modelled from the spec: the Author entity; the spec lists no fields for it,
only its identity is kept. -/
structure Author where
  _id : ObjectId
deriving DecidableEq, Repr

/-- A JavaScript value as it occurs in a processed form field. -/
inductive Val where
  | undefined
  | null
  | str (s : String)
  | date (ms : Int)
deriving DecidableEq, Repr

/-- Modelled from the spec: the BookInstance entity of
`models/bookInstance.js`.  `book` is a reference to a Book: it holds an
identifier, or nothing when the path is undefined.  `imprint` and `status` are
strings.  `due_back` is an optional date: it holds a date, null or nothing,
never a string. -/
structure BookInstance where
  _id : ObjectId
  book : Option ObjectId
  imprint : Val
  status : Val
  due_back : Val
deriving DecidableEq, Repr

/-- The document store: one collection per model. -/
structure Store where
  genres : List Genre
  books : List Book
  authors : List Author
  bookinstances : List BookInstance
deriving DecidableEq, Repr

/-- Result of `Book.find(filter, "title summary")`. -/
structure BookSummary where
  _id : ObjectId
  title : String
  summary : String
deriving DecidableEq, Repr

/-- Result of `Book.find(filter, "title")`. -/
structure BookTitle where
  _id : ObjectId
  title : String
deriving DecidableEq, Repr

/-- A BookInstance after `populate("book")`: the reference is replaced by the
referenced Book, or by null when there is none. -/
structure PopulatedInstance where
  _id : ObjectId
  book : Option Book
  imprint : Val
  status : Val
  due_back : Val
deriving DecidableEq, Repr

/-- A Book whose `author` path has been populated. -/
structure BookWithAuthor where
  _id : ObjectId
  title : String
  summary : String
  author : Option Author
  genre : List ObjectId
deriving DecidableEq, Repr

/-- A BookInstance after the nested populate of `bookinstance_delete_get`. -/
structure DeepInstance where
  _id : ObjectId
  book : Option BookWithAuthor
  imprint : Val
  status : Val
  due_back : Val
deriving DecidableEq, Repr

/-- One entry of `validationResult(req).array()`: a field error with the
field name, the message of the chain and the value that was checked. -/
structure FieldError where
  path : String
  msg : String
  value : String
deriving DecidableEq, Repr

/-- An error object handed to `next`. -/
inductive Err where
  /-- `new Error(message)` with `err.status` assigned. -/
  | http (message : String) (status : Nat)
  /-- The TypeError raised by reading `property` of null or undefined. -/
  | typeError (property : String)
  /-- A rejection of `save()` by the model for the named path. -/
  | validation (path : String)
deriving DecidableEq, Repr

/-- A value in the locals object of `res.render`. -/
inductive Local where
  | text (s : String)
  | genre (g : Option Genre)
  | books (bs : List BookSummary)
  | bookList (bs : List BookTitle)
  | newInstance (b : BookInstance)
  | populated (b : Option PopulatedInstance)
  | deep (b : Option DeepInstance)
  | selected (id : ObjectId)
  | errors (es : List FieldError)
deriving DecidableEq, Repr

/-- A call the handler makes on the response object or on `next`. -/
inductive Action where
  | render (view : String) (locals : List (String × Local))
  | redirect (url : String)
  | next (err : Err)
deriving DecidableEq, Repr

/-- What a handler leaves behind: the store and the calls it made, in order. -/
structure Outcome where
  store : Store
  actions : List Action
deriving DecidableEq, Repr

/-- Behaviour of the libraries and of the model files that the controllers
rely on but do not define. -/
structure Env where
  /-- The `isISO8601` validator. -/
  isISO8601 : String → Bool
  /-- The host function `Date.parse`; `none` stands for NaN. -/
  dateParse : String → Option Int
  /-- Cast of a submitted string by a reference path of a model; `none` when
  the cast fails and the path stays undefined. -/
  castObjectId : String → Option ObjectId
  /-- Cast of a submitted string by a date path of a model; `none` when the
  cast fails and the path stays undefined. -/
  castDate : String → Option Int
  /-- The comparison key of a string under the collation with locale en and
  strength 2: two strings are equal under the collation exactly when their
  keys are equal. -/
  collationKey : String → String
  /-- Effect of `Genre.findByIdAndRemove(undefined)` on the collection. -/
  removeUndefined : List Genre → List Genre
  /-- The `url` virtual of the Genre model. -/
  genreUrl : ObjectId → String
  /-- The `url` virtual of the BookInstance model. -/
  bookInstanceUrl : ObjectId → String

/-! ## Sanitizers and validators of the validation chains -/

/-- Characters matched by the regular expression class for whitespace. -/
def isWhitespace (c : Char) : Bool :=
  let n := c.toNat
  (decide (9 ≤ n) && decide (n ≤ 13)) || n == 32 || n == 160 || n == 5760 ||
    (decide (8192 ≤ n) && decide (n ≤ 8202)) || n == 8232 || n == 8233 ||
    n == 8239 || n == 8287 || n == 12288 || n == 65279

/-- The `trim()` sanitizer: whitespace is removed at both ends. -/
def trim (s : String) : String :=
  ⟨((s.data.dropWhile isWhitespace).reverse.dropWhile isWhitespace).reverse⟩

/-- Replacement of one character by the `escape()` sanitizer. -/
def escapeChar (c : Char) : List Char :=
  if c = '&' then "&amp;".data
  else if c = '"' then "&quot;".data
  else if c = Char.ofNat 39 then "&#x27;".data
  else if c = '<' then "&lt;".data
  else if c = '>' then "&gt;".data
  else if c = '/' then "&#x2F;".data
  else if c = Char.ofNat 92 then "&#x5C;".data
  else if c = Char.ofNat 96 then "&#96;".data
  else [c]

/-- The `escape()` sanitizer: markup-significant characters become entities. -/
def escape (s : String) : String :=
  ⟨s.data.flatMap escapeChar⟩

/-- Variation selectors, which `isLength` does not count. -/
def isVariationSelector (c : Char) : Bool :=
  c.toNat == 65038 || c.toNat == 65039

/-- The length `isLength` measures: characters, variation selectors left out. -/
def validatorLength (s : String) : Nat :=
  s.data.length - (s.data.filter isVariationSelector).length

/-- The `isLength` validator with a minimum only. -/
def isLength (s : String) (min : Nat) : Bool :=
  decide (min ≤ validatorLength s)

/-- Conversion of a field value to the string a standard validator or
sanitizer works on: an absent field becomes the empty string. -/
def toStr : Option String → String
  | none => ""
  | some s => s

/-- The `toDate()` sanitizer: a Date when the string parses, null otherwise. -/
def toDate (env : Env) (s : String) : Val :=
  match env.dateParse s with
  | some ms => Val.date ms
  | none => Val.null

/-- The value of a field no chain touched. -/
def rawVal : Option String → Val
  | none => Val.undefined
  | some s => Val.str s

/-! ## Store queries -/

/-- `Genre.findById(id)`. -/
def Genre.findById (gs : List Genre) (id : ObjectId) : Option Genre :=
  gs.find? (fun g => decide (g._id = id))

/-- `Genre.findOne(name)` under the strength 2 collation: the first stored
Genre whose name equals the query name. -/
def Genre.findOne (env : Env) (gs : List Genre) (name : String) : Option Genre :=
  gs.find? (fun g => decide (env.collationKey g.name = env.collationKey name))

/-- `Genre.findByIdAndRemove(id)`: the document with that identifier is
deleted; an undefined identifier is left to the environment. -/
def Genre.findByIdAndRemove (env : Env) (gs : List Genre) : Option ObjectId → List Genre
  | none => env.removeUndefined gs
  | some id => gs.eraseP (fun g => decide (g._id = id))

/-- The projection `"title summary"`. -/
def Book.summaryOf (b : Book) : BookSummary :=
  ⟨b._id, b.title, b.summary⟩

/-- The projection `"title"`. -/
def Book.titleOf (b : Book) : BookTitle :=
  ⟨b._id, b.title⟩

/-- `Book.find` for the Books that reference the Genre `id`, projected to title
and summary.  The filters `genre: id` and `genre: $in [id]` select the same
Books. -/
def Book.findByGenre (bs : List Book) (id : ObjectId) : List BookSummary :=
  (bs.filter (fun b => decide (id ∈ b.genre))).map Book.summaryOf

/-- `Book.find` of every Book, projected to the title. -/
def Book.findTitles (bs : List Book) : List BookTitle :=
  bs.map Book.titleOf

/-- `BookInstance.findById(id)`, also `findOne` on `_id`. -/
def BookInstance.findById (bis : List BookInstance) (id : ObjectId) : Option BookInstance :=
  bis.find? (fun b => decide (b._id = id))

/-- `populate("book")`. -/
def BookInstance.populate (s : Store) (b : BookInstance) : PopulatedInstance :=
  { _id := b._id
    book := b.book.bind (fun r => s.books.find? (fun k => decide (k._id = r)))
    imprint := b.imprint
    status := b.status
    due_back := b.due_back }

/-- Population of the `author` path of a Book. -/
def Book.populateAuthor (s : Store) (k : Book) : BookWithAuthor :=
  { _id := k._id
    title := k.title
    summary := k.summary
    author := s.authors.find? (fun a => decide (a._id = k.author))
    genre := k.genre }

/-- The nested populate `book` then `book.author`. -/
def BookInstance.populateDeep (s : Store) (b : BookInstance) : DeepInstance :=
  { _id := b._id
    book := (b.book.bind (fun r => s.books.find? (fun k => decide (k._id = r)))).map
      (Book.populateAuthor s)
    imprint := b.imprint
    status := b.status
    due_back := b.due_back }

/-- `BookInstance.findByIdAndRemove(id)`. -/
def BookInstance.findByIdAndRemove (bis : List BookInstance) (id : ObjectId) : List BookInstance :=
  bis.eraseP (fun b => decide (b._id = id))

/-- The `$set` a document used as an update amounts to: every path the
document defines replaces the stored one, an undefined path is left alone. -/
def BookInstance.applySet (old upd : BookInstance) : BookInstance :=
  { _id := upd._id
    book := match upd.book with
      | some r => some r
      | none => old.book
    imprint := if upd.imprint = Val.undefined then old.imprint else upd.imprint
    status := if upd.status = Val.undefined then old.status else upd.status
    due_back := if upd.due_back = Val.undefined then old.due_back else upd.due_back }

/-- The collection after `findByIdAndUpdate(id, upd)`: the first document with
that identifier is updated in place; nothing is inserted. -/
def BookInstance.updateFirst (id : ObjectId) (upd : BookInstance) :
    List BookInstance → List BookInstance
  | [] => []
  | b :: rest =>
    if b._id = id then BookInstance.applySet b upd :: rest
    else b :: BookInstance.updateFirst id upd rest

/-- `BookInstance.findByIdAndUpdate(id, upd, options)` without options: the
collection after the update and the document as it was before it (null when
no document has that identifier). -/
def BookInstance.findByIdAndUpdate (bis : List BookInstance) (id : ObjectId)
    (upd : BookInstance) : List BookInstance × Option BookInstance :=
  (BookInstance.updateFirst id upd bis, BookInstance.findById bis id)

/-! ## Validation chains -/

/-- The request body of the Genre forms: the `name` field of the create form
and the hidden `genreid` field of the delete form, each possibly absent.  A
`genreid` that is present is taken after the store has accepted it as an
identifier. -/
structure GenreForm where
  name : Option String
  genreid : Option ObjectId
deriving DecidableEq, Repr

/-- The request body of the BookInstance form. -/
structure InstanceForm where
  book : Option String
  imprint : Option String
  status : Option String
  due_back : Option String
deriving DecidableEq, Repr

/-- The request body after the validation chains ran. -/
structure InstanceFields where
  book : Val
  imprint : Val
  status : Val
  due_back : Val
deriving DecidableEq, Repr

/-- A chain `body(path, msg).trim().isLength(min).escape()`: the error it
records, on the trimmed value. -/
def lengthErrors (path msg : String) (min : Nat) (field : Option String) : List FieldError :=
  if isLength (trim (toStr field)) min then [] else [⟨path, msg, trim (toStr field)⟩]

/-- A chain `body(path, msg).trim().isLength(min).escape()`: the value it
leaves in the request body. -/
def lengthValue (field : Option String) : String :=
  escape (trim (toStr field))

/-- The chain on `name` of `genre_create_post`: its errors. -/
def genre_create_errors (body : GenreForm) : List FieldError :=
  lengthErrors "name" "Genre name must contain at least 3 characters" 3 body.name

/-- The chain `body("due_back", "Invalid date").optional(falsy).isISO8601().toDate()`:
its errors.  An absent or empty field is skipped. -/
def dueBackErrors (env : Env) : Option String → List FieldError
  | none => []
  | some d =>
    if d = "" then []
    else if env.isISO8601 d then []
    else [⟨"due_back", "Invalid date", d⟩]

/-- The chain on `due_back`: the value it leaves in the request body. -/
def dueBackValue (env : Env) : Option String → Val
  | none => Val.undefined
  | some d => if d = "" then Val.str "" else toDate env d

/-- The four chains of `bookinstance_create_post`: the errors, in the order
of the chains. -/
def bookinstance_create_errors (env : Env) (body : InstanceForm) : List FieldError :=
  lengthErrors "book" "Book must be specified" 1 body.book ++
    lengthErrors "imprint" "Imprint must be specified" 1 body.imprint ++
    dueBackErrors env body.due_back

/-- The four chains of `bookinstance_create_post`: the request body they
leave behind. -/
def bookinstance_create_fields (env : Env) (body : InstanceForm) : InstanceFields :=
  { book := Val.str (lengthValue body.book)
    imprint := Val.str (lengthValue body.imprint)
    status := Val.str (escape (toStr body.status))
    due_back := dueBackValue env body.due_back }

/-- The single chain of `bookinstance_update_post`: its errors. -/
def bookinstance_update_errors (body : InstanceForm) : List FieldError :=
  lengthErrors "imprint" "Imprint must not be empty." 1 body.imprint

/-- The single chain of `bookinstance_update_post`: the request body it
leaves behind. -/
def bookinstance_update_fields (body : InstanceForm) : InstanceFields :=
  { book := rawVal body.book
    imprint := Val.str (lengthValue body.imprint)
    status := rawVal body.status
    due_back := rawVal body.due_back }

/-- Cast of a value assigned to a reference path by a model constructor. -/
def castRef (env : Env) : Val → Option ObjectId
  | Val.str s => env.castObjectId s
  | _ => none

/-- Cast of a value assigned to a date path by a model constructor: a date and
null are kept, the empty string becomes null, any other string becomes the date
it is cast to, and a string that cannot be cast leaves the path undefined. -/
def castDue (env : Env) : Val → Val
  | Val.undefined => Val.undefined
  | Val.null => Val.null
  | Val.date ms => Val.date ms
  | Val.str s =>
    if s = "" then Val.null
    else match env.castDate s with
      | some ms => Val.date ms
      | none => Val.undefined

/-- The constructor `new BookInstance(fields)` with the identifier `id`: the
reference path and the date path cast what they are given, the string paths
keep it. -/
def BookInstance.new (env : Env) (id : ObjectId) (f : InstanceFields) : BookInstance :=
  { _id := id
    book := castRef env f.book
    imprint := f.imprint
    status := f.status
    due_back := castDue env f.due_back }

/-! ## Genre handlers -/

/-- Handler `genre_detail`. -/
def genre_detail (s : Store) (id : ObjectId) : Outcome :=
  let genre := Genre.findById s.genres id
  let booksInGenre := Book.findByGenre s.books id
  match genre with
  | none => ⟨s, [Action.next (Err.http "Genre not found" 404)]⟩
  | some g =>
    ⟨s, [Action.render "genre_detail"
      [("title", Local.text "Genre Detail"), ("genre", Local.genre (some g)),
       ("genre_books", Local.books booksInGenre)]]⟩

/-- Handler `genre_create_post`; `fresh` is the identifier the constructor
`new Genre` assigns. -/
def genre_create_post (env : Env) (s : Store) (fresh : ObjectId) (body : GenreForm) : Outcome :=
  let errors := genre_create_errors body
  let genre : Genre := ⟨fresh, lengthValue body.name⟩
  if errors ≠ [] then
    ⟨s, [Action.render "genre_form"
      [("title", Local.text "Create Genre"), ("genre", Local.genre (some genre)),
       ("errors", Local.errors errors)]]⟩
  else
    match Genre.findOne env s.genres (lengthValue body.name) with
    | some genreExists => ⟨s, [Action.redirect (env.genreUrl genreExists._id)]⟩
    | none =>
      ⟨{ s with genres := s.genres ++ [genre] }, [Action.redirect (env.genreUrl genre._id)]⟩

/-- Handler `genre_delete_get`.  The branch for a missing Genre does not
return, so the render call follows the redirect. -/
def genre_delete_get (s : Store) (id : ObjectId) : Outcome :=
  let genre := Genre.findById s.genres id
  let allBooksInGenre := Book.findByGenre s.books id
  let first := match genre with
    | none => [Action.redirect "/catalog/genres"]
    | some _ => []
  ⟨s, first ++ [Action.render "genre_delete"
    [("title", Local.text "Delete Genre"), ("genre", Local.genre genre),
     ("genre_books", Local.books allBooksInGenre)]]⟩

/-- Handler `genre_delete_post`: the lookups use the route identifier `id`,
the removal uses `body.genreid`. -/
def genre_delete_post (env : Env) (s : Store) (id : ObjectId) (body : GenreForm) : Outcome :=
  let genre := Genre.findById s.genres id
  let allBooksInGenre := Book.findByGenre s.books id
  if allBooksInGenre.length > 0 then
    ⟨s, [Action.render "genre_delete"
      [("title", Local.text "Delete Genre"), ("genre", Local.genre genre),
       ("genre_books", Local.books allBooksInGenre)]]⟩
  else
    ⟨{ s with genres := Genre.findByIdAndRemove env s.genres body.genreid },
      [Action.redirect "/catalog/genres"]⟩

/-! ## BookInstance handlers -/

/-- Handler `bookinstance_detail`. -/
def bookinstance_detail (s : Store) (id : ObjectId) : Outcome :=
  match BookInstance.findById s.bookinstances id with
  | none => ⟨s, [Action.next (Err.http "Book copy not found" 404)]⟩
  | some b =>
    ⟨s, [Action.render "bookInstance_detail"
      [("title", Local.text "Book:"),
       ("bookinstance", Local.populated (some (BookInstance.populate s b)))]]⟩

/-- Handler `bookinstance_create_post`; `fresh` is the identifier the
constructor `new BookInstance` assigns.  On the error branch the locals read
`bookInstance.book._id`, which raises when the path `book` is undefined; on the
success branch `save()` rejects a document whose `book`, which the data model
marks as required, is undefined.  The chain on `due_back` leaves a value the
date path accepts, so `book` is the only path that can make `save()` reject. -/
def bookinstance_create_post (env : Env) (s : Store) (fresh : ObjectId)
    (body : InstanceForm) : Outcome :=
  let errors := bookinstance_create_errors env body
  let bookInstance := BookInstance.new env fresh (bookinstance_create_fields env body)
  if errors ≠ [] then
    let allBooks := Book.findTitles s.books
    match bookInstance.book with
    | none => ⟨s, [Action.next (Err.typeError "_id")]⟩
    | some selected =>
      ⟨s, [Action.render "bookInstance_form"
        [("title", Local.text "Create Book Instance"), ("book_list", Local.bookList allBooks),
         ("selected_book", Local.selected selected), ("errors", Local.errors errors),
         ("bookinstance", Local.newInstance bookInstance)]]⟩
  else
    match bookInstance.book with
    | none => ⟨s, [Action.next (Err.validation "book")]⟩
    | some _ =>
      ⟨{ s with bookinstances := s.bookinstances ++ [bookInstance] },
        [Action.redirect (env.bookInstanceUrl bookInstance._id)]⟩

/-- Handler `bookinstance_delete_get`.  The branch for a missing BookInstance
does not return, so the render call follows the redirect. -/
def bookinstance_delete_get (s : Store) (id : ObjectId) : Outcome :=
  let bookInstance := (BookInstance.findById s.bookinstances id).map (BookInstance.populateDeep s)
  let first := match bookInstance with
    | none => [Action.redirect "/catalog/bookInstances"]
    | some _ => []
  ⟨s, first ++ [Action.render "bookInstance_delete"
    [("title", Local.text "Delete Book Instance"), ("bookinstance", Local.deep bookInstance)]]⟩

/-- Handler `bookinstance_delete_post`. -/
def bookinstance_delete_post (s : Store) (id : ObjectId) : Outcome :=
  ⟨{ s with bookinstances := BookInstance.findByIdAndRemove s.bookinstances id },
    [Action.redirect "/catalog/bookInstances"]⟩

/-- Handler `bookinstance_update_get`.  The locals read `bookInstance.book._id`
on the populated document, which raises when the referenced Book is null. -/
def bookinstance_update_get (s : Store) (id : ObjectId) : Outcome :=
  let bookInstance := (BookInstance.findById s.bookinstances id).map (BookInstance.populate s)
  let allBooks := Book.findTitles s.books
  match bookInstance with
  | none => ⟨s, [Action.next (Err.http "Book instance not found" 404)]⟩
  | some b =>
    match b.book with
    | none => ⟨s, [Action.next (Err.typeError "_id")]⟩
    | some k =>
      ⟨s, [Action.render "bookInstance_form"
        [("title", Local.text "Update Book Instance"), ("selected_book", Local.selected k._id),
         ("bookinstance", Local.populated (some b)), ("book_list", Local.bookList allBooks)]]⟩

/-- Handler `bookinstance_update_post`; the document is built with the route
identifier `id`.  The redirect reads `url` of the document returned by
`findByIdAndUpdate`, which raises when that document is null. -/
def bookinstance_update_post (env : Env) (s : Store) (id : ObjectId)
    (body : InstanceForm) : Outcome :=
  let allBooks := Book.findTitles s.books
  let errors := bookinstance_update_errors body
  let bookInstance := BookInstance.new env id (bookinstance_update_fields body)
  if errors ≠ [] then
    match bookInstance.book with
    | none => ⟨s, [Action.next (Err.typeError "_id")]⟩
    | some selected =>
      ⟨s, [Action.render "bookInstance_form"
        [("title", Local.text "Update Book Instance"),
         ("bookinstance", Local.newInstance bookInstance),
         ("selected_book", Local.selected selected), ("book_list", Local.bookList allBooks),
         ("errors", Local.errors errors)]]⟩
  else
    match BookInstance.findByIdAndUpdate s.bookinstances id bookInstance with
    | (updated, none) => ⟨{ s with bookinstances := updated }, [Action.next (Err.typeError "url")]⟩
    | (updated, some updatedBook) =>
      ⟨{ s with bookinstances := updated },
        [Action.redirect (env.bookInstanceUrl updatedBook._id)]⟩

/-! ## A concrete environment -/

/-- Whether a character is a hexadecimal digit. -/
def isHexDigit (c : Char) : Bool :=
  c.isDigit || (decide ('a' ≤ c) && decide (c ≤ 'f')) || (decide ('A' ≤ c) && decide (c ≤ 'F'))

/-- Fold of the letters A to Z to lower case. -/
def lowerChar (c : Char) : Char :=
  if 65 ≤ c.toNat ∧ c.toNat ≤ 90 then Char.ofNat (c.toNat + 32) else c

/-- Whether a string has the shape of a calendar date, four digits, two
digits and two digits separated by hyphens. -/
def isCalendarDate (s : String) : Bool :=
  match s.data with
  | [y1, y2, y3, y4, h1, m1, m2, h2, d1, d2] =>
    y1.isDigit && y2.isDigit && y3.isDigit && y4.isDigit && h1 == '-' &&
      m1.isDigit && m2.isDigit && h2 == '-' && d1.isDigit && d2.isDigit
  | _ => false

/-- The value of a decimal digit. -/
def digitValue (c : Char) : Nat :=
  c.toNat - 48

/-- Days from the first of January 1970 to the given day of the proleptic
Gregorian calendar. -/
def daysFromCivil (y m d : Nat) : Int :=
  let y1 : Int := if m ≤ 2 then (y : Int) - 1 else (y : Int)
  let era : Int := y1 / 400
  let yoe : Int := y1 - era * 400
  let mp : Int := if m ≤ 2 then (m : Int) + 9 else (m : Int) - 3
  let doy : Int := (153 * mp + 2) / 5 + (d : Int) - 1
  let doe : Int := yoe * 365 + yoe / 4 - yoe / 100 + doy
  era * 146097 + doe - 719468

/-- Milliseconds since the epoch of a calendar date at midnight UTC; `none`
for a string that is not a calendar date. -/
def calendarDateMs (s : String) : Option Int :=
  if isCalendarDate s then
    match s.data with
    | [y1, y2, y3, y4, _, m1, m2, _, d1, d2] =>
      let y := digitValue y1 * 1000 + digitValue y2 * 100 + digitValue y3 * 10 + digitValue y4
      let m := digitValue m1 * 10 + digitValue m2
      let d := digitValue d1 * 10 + digitValue d2
      if 1 ≤ m ∧ m ≤ 12 ∧ 1 ≤ d ∧ d ≤ 31 then some (daysFromCivil y m d * 86400000) else none
    | _ => none
  else none

/-- A concrete environment used to evaluate the handlers on sample requests:
identifiers are strings of 24 hexadecimal digits, the collation key folds the
letters A to Z, the date validator accepts calendar dates only, calendar dates
are parsed and cast as midnight UTC and nothing else is, removal of an
undefined identifier deletes nothing, and the URLs are the catalogue paths. -/
def sampleEnv : Env :=
  { isISO8601 := isCalendarDate
    dateParse := calendarDateMs
    castObjectId := fun s =>
      if s.data.length = 24 ∧ s.data.all isHexDigit = true then some ⟨s⟩ else none
    castDate := calendarDateMs
    collationKey := fun a => ⟨a.data.map lowerChar⟩
    removeUndefined := fun gs => gs
    genreUrl := fun i => "/catalog/genre/" ++ i.hex
    bookInstanceUrl := fun i => "/catalog/bookinstance/" ++ i.hex }

/-- A store with two Genres, one Book in the first Genre and one copy of it. -/
def sampleStore : Store :=
  { genres := [⟨⟨"aaaaaaaaaaaaaaaaaaaaaaaa"⟩, "Fantasy"⟩, ⟨⟨"bbbbbbbbbbbbbbbbbbbbbbbb"⟩, "Poetry"⟩]
    books := [⟨⟨"cccccccccccccccccccccccc"⟩, "The Hobbit", "There and back again",
      ⟨"dddddddddddddddddddddddd"⟩, [⟨"aaaaaaaaaaaaaaaaaaaaaaaa"⟩]⟩]
    authors := [⟨⟨"dddddddddddddddddddddddd"⟩⟩]
    bookinstances := [⟨⟨"eeeeeeeeeeeeeeeeeeeeeeee"⟩, some ⟨"cccccccccccccccccccccccc"⟩,
      Val.str "Allen and Unwin, 1937", Val.str "Available", Val.undefined⟩] }

/-- A store with two Genres whose names are equal under the collation. -/
def duplicateStore : Store :=
  { genres := [⟨⟨"aaaaaaaaaaaaaaaaaaaaaaaa"⟩, "Sci-Fi"⟩, ⟨⟨"bbbbbbbbbbbbbbbbbbbbbbbb"⟩, "sci-fi"⟩]
    books := []
    authors := []
    bookinstances := [] }

/-- A store whose only Genre has a name with a markup-significant character. -/
def ampersandStore : Store :=
  { genres := [⟨⟨"aaaaaaaaaaaaaaaaaaaaaaaa"⟩, "R&B"⟩]
    books := []
    authors := []
    bookinstances := [] }

/-- A store whose only copy is on loan until the 31st of January 2026. -/
def loanStore : Store :=
  { genres := []
    books := [⟨⟨"cccccccccccccccccccccccc"⟩, "The Hobbit", "There and back again",
      ⟨"dddddddddddddddddddddddd"⟩, []⟩]
    authors := [⟨⟨"dddddddddddddddddddddddd"⟩⟩]
    bookinstances := [⟨⟨"eeeeeeeeeeeeeeeeeeeeeeee"⟩, some ⟨"cccccccccccccccccccccccc"⟩,
      Val.str "Allen and Unwin, 1937", Val.str "Loaned", Val.date 1769817600000⟩] }

/-! ## Auxiliary facts -/

theorem find_none_of_ne {α : Type} (key : α → ObjectId) (l : List α) (id : ObjectId)
    (h : ∀ x ∈ l, key x ≠ id) : l.find? (fun x => decide (key x = id)) = none := by
  induction l with
  | nil => rfl
  | cons a l ih =>
    have ha : key a ≠ id := h a (List.mem_cons_self a l)
    have hl : ∀ x ∈ l, key x ≠ id := fun x hx => h x (List.mem_cons_of_mem a hx)
    simp [List.find?, ha, ih hl]

theorem find_eraseP_of_ne (l : List Genre) (id j : ObjectId) (g : Genre) (hne : j ≠ id)
    (hg : Genre.findById l id = some g) :
    Genre.findById (l.eraseP (fun x => decide (x._id = j))) id = some g := by
  unfold Genre.findById at hg ⊢
  induction l with
  | nil => simp at hg
  | cons a l ih =>
    by_cases haj : a._id = j
    · have hai : a._id ≠ id := fun h => hne (haj ▸ h)
      simp only [List.find?, hai, decide_False] at hg
      simp only [List.eraseP_cons, haj, decide_True, cond_true]
      exact hg
    · simp only [List.eraseP_cons, haj, decide_False, cond_false]
      by_cases hai : a._id = id
      · simp only [List.find?, hai, decide_True] at hg ⊢
        exact hg
      · simp only [List.find?, hai, decide_False] at hg ⊢
        exact ih hg

theorem find_eraseP_same (l : List Genre) (id : ObjectId)
    (hnodup : (l.map Genre._id).Nodup) :
    Genre.findById (l.eraseP (fun x => decide (x._id = id))) id = none := by
  unfold Genre.findById
  induction l with
  | nil => rfl
  | cons a l ih =>
    rw [List.map_cons, List.nodup_cons] at hnodup
    by_cases ha : a._id = id
    · simp only [List.eraseP_cons, ha, decide_True, cond_true]
      apply find_none_of_ne Genre._id l id
      intro x hx hxid
      exact hnodup.1 (List.mem_map.mpr ⟨x, hx, hxid.trans ha.symm⟩)
    · simp only [List.eraseP_cons, ha, decide_False, cond_false, List.find?]
      exact ih hnodup.2

theorem length_dropWhile_le_self {α : Type} (p : α → Bool) (l : List α) :
    (l.dropWhile p).length ≤ l.length := by
  induction l with
  | nil => simp
  | cons a l ih =>
    simp only [List.dropWhile]
    split
    · exact Nat.le_succ_of_le ih
    · exact Nat.le_refl _

theorem trim_length_le (s : String) : (trim s).length ≤ s.length := by
  have h1 := length_dropWhile_le_self isWhitespace s.data
  have h2 := length_dropWhile_le_self isWhitespace (s.data.dropWhile isWhitespace).reverse
  simp only [List.length_reverse] at h2
  show ((((s.data.dropWhile isWhitespace).reverse.dropWhile isWhitespace).reverse).length
    ≤ s.data.length)
  rw [List.length_reverse]
  omega

theorem validatorLength_le (s : String) : validatorLength s ≤ s.length := by
  show s.data.length - _ ≤ s.data.length
  omega

theorem isLength_false_of_short (s : String) (min : Nat) (h : s.length < min) :
    isLength s min = false := by
  have := validatorLength_le s
  simp only [isLength, decide_eq_false_iff_not]
  omega

theorem updateFirst_ids (id : ObjectId) (upd : BookInstance) (hupd : upd._id = id)
    (l : List BookInstance) :
    (BookInstance.updateFirst id upd l).map BookInstance._id = l.map BookInstance._id := by
  induction l with
  | nil => rfl
  | cons a l ih =>
    by_cases ha : a._id = id
    · simp [BookInstance.updateFirst, BookInstance.applySet, ha, hupd]
    · simp [BookInstance.updateFirst, ha, ih]

theorem filter_id_nil (id : ObjectId) (l : List BookInstance)
    (h : id ∉ l.map BookInstance._id) : l.filter (fun b => decide (b._id = id)) = [] := by
  rw [List.filter_eq_nil_iff]
  intro b hb hdec
  exact h (List.mem_map.mpr ⟨b, hb, by simpa using hdec⟩)

theorem updateFirst_filter (id : ObjectId) (upd old : BookInstance) (hupd : upd._id = id)
    (l : List BookInstance) (hnodup : (l.map BookInstance._id).Nodup)
    (hold : old ∈ l) (hid : old._id = id) :
    (BookInstance.updateFirst id upd l).filter (fun b => decide (b._id = id)) =
      [BookInstance.applySet old upd] := by
  induction l with
  | nil => simp at hold
  | cons a l ih =>
    rw [List.map_cons, List.nodup_cons] at hnodup
    by_cases ha : a._id = id
    · have hnot : id ∉ l.map BookInstance._id := ha ▸ hnodup.1
      have hoa : old = a := by
        rcases List.mem_cons.mp hold with h | h
        · exact h
        · exact absurd (List.mem_map.mpr ⟨old, h, hid⟩) hnot
      subst hoa
      simp [BookInstance.updateFirst, BookInstance.applySet, ha, hupd, filter_id_nil id l hnot]
    · have hol : old ∈ l := by
        rcases List.mem_cons.mp hold with h | h
        · exact absurd (h ▸ hid) ha
        · exact h
      simp [BookInstance.updateFirst, ha, ih hnodup.2 hol]

theorem findById_of_mem (id : ObjectId) (old : BookInstance) (l : List BookInstance)
    (hold : old ∈ l) (hid : old._id = id) :
    ∃ b, BookInstance.findById l id = some b ∧ b._id = id := by
  cases hfind : BookInstance.findById l id with
  | none =>
    unfold BookInstance.findById at hfind
    rw [List.find?_eq_none] at hfind
    exact absurd (by simpa using hid) (hfind old hold)
  | some b =>
    unfold BookInstance.findById at hfind
    exact ⟨b, rfl, by simpa using List.find?_some hfind⟩

theorem castDue_toDate (env : Env) (d : String) : castDue env (toDate env d) = toDate env d := by
  unfold toDate
  cases env.dateParse d <;> rfl

theorem findOne_key_congr (env : Env) (gs : List Genre) (n1 n2 : String)
    (h : env.collationKey n2 = env.collationKey n1) :
    Genre.findOne env gs n2 = Genre.findOne env gs n1 := by
  unfold Genre.findOne
  rw [h]

/-! ## Lookups of a missing entity -/

/-- C10: for an identifier that matches no stored entity, `bookinstance_detail`,
`bookinstance_update_get` and `genre_detail` each make exactly one call, `next`
with an error of status 404 and the message of the handler; nothing is rendered,
no redirect is issued and the store is unchanged. -/
theorem detail_missing_forwards_404 (s : Store) (id : ObjectId) :
    ((∀ b ∈ s.bookinstances, b._id ≠ id) →
      bookinstance_detail s id = ⟨s, [Action.next (Err.http "Book copy not found" 404)]⟩ ∧
      bookinstance_update_get s id =
        ⟨s, [Action.next (Err.http "Book instance not found" 404)]⟩) ∧
    ((∀ g ∈ s.genres, g._id ≠ id) →
      genre_detail s id = ⟨s, [Action.next (Err.http "Genre not found" 404)]⟩) := by
  refine ⟨fun h => ⟨?_, ?_⟩, fun h => ?_⟩
  · have hf := find_none_of_ne BookInstance._id s.bookinstances id h
    simp only [bookinstance_detail, BookInstance.findById, hf]
  · have hf := find_none_of_ne BookInstance._id s.bookinstances id h
    simp only [bookinstance_update_get, BookInstance.findById, hf, Option.map_none']
  · have hf := find_none_of_ne Genre._id s.genres id h
    simp only [genre_detail, Genre.findById, hf]

/-- C10 at the sample store and an identifier no document carries. -/
theorem detail_missing_forwards_404_witness :
    (bookinstance_detail sampleStore ⟨"ffffffffffffffffffffffff"⟩ =
        ⟨sampleStore, [Action.next (Err.http "Book copy not found" 404)]⟩ ∧
      bookinstance_update_get sampleStore ⟨"ffffffffffffffffffffffff"⟩ =
        ⟨sampleStore, [Action.next (Err.http "Book instance not found" 404)]⟩) ∧
    genre_detail sampleStore ⟨"ffffffffffffffffffffffff"⟩ =
      ⟨sampleStore, [Action.next (Err.http "Genre not found" 404)]⟩ :=
  ⟨(detail_missing_forwards_404 sampleStore ⟨"ffffffffffffffffffffffff"⟩).1 (by decide),
   (detail_missing_forwards_404 sampleStore ⟨"ffffffffffffffffffffffff"⟩).2 (by decide)⟩

/-! ## Delete confirmation of a missing entity -/

/-- C3: for an identifier that matches no stored entity, `genre_delete_get` and
`bookinstance_delete_get` leave the store unchanged and call `res.redirect` with
the list path, and then, because the branch does not return, `res.render` with
the delete view and a null entity. -/
theorem delete_get_missing_redirects_then_renders (s : Store) (id : ObjectId) :
    ((∀ g ∈ s.genres, g._id ≠ id) →
      genre_delete_get s id =
        ⟨s, [Action.redirect "/catalog/genres",
          Action.render "genre_delete"
            [("title", Local.text "Delete Genre"), ("genre", Local.genre none),
             ("genre_books", Local.books (Book.findByGenre s.books id))]]⟩) ∧
    ((∀ b ∈ s.bookinstances, b._id ≠ id) →
      bookinstance_delete_get s id =
        ⟨s, [Action.redirect "/catalog/bookInstances",
          Action.render "bookInstance_delete"
            [("title", Local.text "Delete Book Instance"),
             ("bookinstance", Local.deep none)]]⟩) := by
  refine ⟨fun h => ?_, fun h => ?_⟩
  · have hf := find_none_of_ne Genre._id s.genres id h
    simp only [genre_delete_get, Genre.findById, hf, List.singleton_append]
  · have hf := find_none_of_ne BookInstance._id s.bookinstances id h
    simp only [bookinstance_delete_get, BookInstance.findById, hf, Option.map_none',
      List.singleton_append]

/-- C3 at the sample store and an identifier no document carries: both
handlers make two calls, the redirect and the render. -/
theorem delete_get_missing_redirects_then_renders_witness :
    genre_delete_get sampleStore ⟨"ffffffffffffffffffffffff"⟩ =
        ⟨sampleStore, [Action.redirect "/catalog/genres",
          Action.render "genre_delete"
            [("title", Local.text "Delete Genre"), ("genre", Local.genre none),
             ("genre_books", Local.books [])]]⟩ ∧
    bookinstance_delete_get sampleStore ⟨"ffffffffffffffffffffffff"⟩ =
        ⟨sampleStore, [Action.redirect "/catalog/bookInstances",
          Action.render "bookInstance_delete"
            [("title", Local.text "Delete Book Instance"),
             ("bookinstance", Local.deep none)]]⟩ :=
  ⟨(delete_get_missing_redirects_then_renders sampleStore ⟨"ffffffffffffffffffffffff"⟩).1
      (by decide),
   (delete_get_missing_redirects_then_renders sampleStore ⟨"ffffffffffffffffffffffff"⟩).2
      (by decide)⟩

/-! ## Guarded delete of a Genre -/

/-- C6: when at least one Book references the route identifier,
`genre_delete_post` leaves the store unchanged and makes one call, the render
of `genre_delete` whose `genre_books` are the Books referencing the route
identifier (projected to title and summary); this holds for every request
body. -/
theorem genre_delete_post_blocked (env : Env) (s : Store) (id : ObjectId) (body : GenreForm)
    (h : ∃ b ∈ s.books, id ∈ b.genre) :
    genre_delete_post env s id body =
      ⟨s, [Action.render "genre_delete"
        [("title", Local.text "Delete Genre"),
         ("genre", Local.genre (Genre.findById s.genres id)),
         ("genre_books", Local.books
           ((s.books.filter (fun b => decide (id ∈ b.genre))).map Book.summaryOf))]]⟩ := by
  obtain ⟨b, hb, hid⟩ := h
  have hmem : Book.summaryOf b ∈ Book.findByGenre s.books id := by
    unfold Book.findByGenre
    exact List.mem_map_of_mem _ (List.mem_filter.mpr ⟨hb, by simpa using hid⟩)
  have hpos : (Book.findByGenre s.books id).length > 0 := List.length_pos_of_mem hmem
  simp only [genre_delete_post, hpos, if_true]
  rfl

/-- C6 at the sample store: the first Genre is referenced by the sample Book. -/
theorem genre_delete_post_blocked_witness :
    genre_delete_post sampleEnv sampleStore ⟨"aaaaaaaaaaaaaaaaaaaaaaaa"⟩
        ⟨none, some ⟨"aaaaaaaaaaaaaaaaaaaaaaaa"⟩⟩ =
      ⟨sampleStore, [Action.render "genre_delete"
        [("title", Local.text "Delete Genre"),
         ("genre", Local.genre (some ⟨⟨"aaaaaaaaaaaaaaaaaaaaaaaa"⟩, "Fantasy"⟩)),
         ("genre_books", Local.books
           [⟨⟨"cccccccccccccccccccccccc"⟩, "The Hobbit", "There and back again"⟩])]]⟩ :=
  genre_delete_post_blocked sampleEnv sampleStore ⟨"aaaaaaaaaaaaaaaaaaaaaaaa"⟩
    ⟨none, some ⟨"aaaaaaaaaaaaaaaaaaaaaaaa"⟩⟩ (by decide)

/-- C1: for a Genre that carries the route identifier and that no Book
references, `genre_delete_post` redirects to the Genre list but removes the
document named by the body field `genreid`; when that field names another
identifier the Genre with the route identifier stays in the store and
`genre_detail` still renders it. -/
theorem genre_delete_post_removes_body_id (env : Env) (s : Store) (id j : ObjectId)
    (body : GenreForm) (g : Genre)
    (hg : Genre.findById s.genres id = some g)
    (hno : ∀ b ∈ s.books, id ∉ b.genre)
    (hj : body.genreid = some j) (hne : j ≠ id) :
    genre_delete_post env s id body =
      ⟨{ s with genres := s.genres.eraseP (fun x => decide (x._id = j)) },
        [Action.redirect "/catalog/genres"]⟩ ∧
    g ∈ (genre_delete_post env s id body).store.genres ∧
    genre_detail (genre_delete_post env s id body).store id =
      ⟨(genre_delete_post env s id body).store,
        [Action.render "genre_detail"
          [("title", Local.text "Genre Detail"), ("genre", Local.genre (some g)),
           ("genre_books", Local.books [])]]⟩ := by
  have hnil : Book.findByGenre s.books id = [] := by
    unfold Book.findByGenre
    rw [List.map_eq_nil_iff, List.filter_eq_nil_iff]
    intro b hb
    simpa using hno b hb
  have hout : genre_delete_post env s id body =
      ⟨{ s with genres := s.genres.eraseP (fun x => decide (x._id = j)) },
        [Action.redirect "/catalog/genres"]⟩ := by
    simp [genre_delete_post, hnil, hj, Genre.findByIdAndRemove]
  have hgid : g._id = id := by
    have := List.find?_some hg
    simpa using this
  have hfind : Genre.findById (s.genres.eraseP (fun x => decide (x._id = j))) id = some g :=
    find_eraseP_of_ne s.genres id j g hne hg
  refine ⟨hout, ?_, ?_⟩
  · rw [hout]
    exact List.mem_of_find?_eq_some hfind
  · rw [hout]
    simp only [genre_detail, hfind, hnil]

/-- C1 at the sample store: a request to delete the Genre Poetry, which no
Book references, whose body names the Genre Fantasy, removes Fantasy and
keeps Poetry. -/
theorem genre_delete_post_removes_body_id_witness :
    genre_delete_post sampleEnv sampleStore ⟨"bbbbbbbbbbbbbbbbbbbbbbbb"⟩
        ⟨none, some ⟨"aaaaaaaaaaaaaaaaaaaaaaaa"⟩⟩ =
      ⟨{ sampleStore with genres := [⟨⟨"bbbbbbbbbbbbbbbbbbbbbbbb"⟩, "Poetry"⟩] },
        [Action.redirect "/catalog/genres"]⟩ :=
  (genre_delete_post_removes_body_id sampleEnv sampleStore ⟨"bbbbbbbbbbbbbbbbbbbbbbbb"⟩
    ⟨"aaaaaaaaaaaaaaaaaaaaaaaa"⟩ ⟨none, some ⟨"aaaaaaaaaaaaaaaaaaaaaaaa"⟩⟩
    ⟨⟨"bbbbbbbbbbbbbbbbbbbbbbbb"⟩, "Poetry"⟩ (by decide) (by decide) rfl (by decide)).1

/-- When the body field `genreid` equals the route identifier, identifiers
are distinct and no Book references the Genre, `genre_delete_post` removes the
Genre and a following `genre_detail` forwards the 404 error. -/
theorem genre_delete_post_removes_route_id (env : Env) (s : Store) (id : ObjectId)
    (body : GenreForm)
    (hnodup : (s.genres.map Genre._id).Nodup)
    (hno : ∀ b ∈ s.books, id ∉ b.genre)
    (hj : body.genreid = some id) :
    (genre_delete_post env s id body).actions = [Action.redirect "/catalog/genres"] ∧
    genre_detail (genre_delete_post env s id body).store id =
      ⟨(genre_delete_post env s id body).store,
        [Action.next (Err.http "Genre not found" 404)]⟩ := by
  have hnil : Book.findByGenre s.books id = [] := by
    unfold Book.findByGenre
    rw [List.map_eq_nil_iff, List.filter_eq_nil_iff]
    intro b hb
    simpa using hno b hb
  have hout : genre_delete_post env s id body =
      ⟨{ s with genres := s.genres.eraseP (fun x => decide (x._id = id)) },
        [Action.redirect "/catalog/genres"]⟩ := by
    simp [genre_delete_post, hnil, hj, Genre.findByIdAndRemove]
  rw [hout]
  refine ⟨rfl, ?_⟩
  simp only [genre_detail, find_eraseP_same s.genres id hnodup]

/-! ## Creation of a Genre -/

/-- C8: when the submitted name, or the name after trimming, is shorter than
three characters, `genre_create_post` leaves the store unchanged and makes one
call, the render of `genre_form` with the attempted Genre and the single error
on field `name` with the message of the chain. -/
theorem genre_create_post_short_name (env : Env) (s : Store) (fresh : ObjectId)
    (body : GenreForm)
    (h : (toStr body.name).length < 3 ∨ (trim (toStr body.name)).length < 3) :
    genre_create_post env s fresh body =
      ⟨s, [Action.render "genre_form"
        [("title", Local.text "Create Genre"),
         ("genre", Local.genre (some ⟨fresh, escape (trim (toStr body.name))⟩)),
         ("errors", Local.errors
           [⟨"name", "Genre name must contain at least 3 characters",
             trim (toStr body.name)⟩])]]⟩ := by
  have hshort : (trim (toStr body.name)).length < 3 := by
    rcases h with h | h
    · exact Nat.lt_of_le_of_lt (trim_length_le _) h
    · exact h
  have hlen := isLength_false_of_short _ 3 hshort
  simp [genre_create_post, genre_create_errors, lengthErrors, lengthValue, hlen]

/-- C8 at a name of six characters that trims to two. -/
theorem genre_create_post_short_name_witness :
    genre_create_post sampleEnv sampleStore ⟨"ffffffffffffffffffffffff"⟩ ⟨some "  ab  ", none⟩ =
      ⟨sampleStore, [Action.render "genre_form"
        [("title", Local.text "Create Genre"),
         ("genre", Local.genre (some ⟨⟨"ffffffffffffffffffffffff"⟩, "ab"⟩)),
         ("errors", Local.errors
           [⟨"name", "Genre name must contain at least 3 characters", "ab"⟩])]]⟩ :=
  genre_create_post_short_name sampleEnv sampleStore ⟨"ffffffffffffffffffffffff"⟩
    ⟨some "  ab  ", none⟩ (Or.inr (by decide))

/-- C5 as stated fails.  In a store where two Genres match the submitted
name, the request for the name of the second one passes validation, the second
Genre matches it under the collation, and the redirect goes to the URL of the
first Genre, which is not the URL of the second.  And in a store whose only
Genre is named `R&B`, the request for that very name passes validation and is
escaped before the lookup, so no Genre matches and a second Genre is
inserted. -/
theorem genre_create_post_duplicate_counterexample :
    genre_create_errors ⟨some "sci-fi", none⟩ = [] ∧
    (⟨⟨"bbbbbbbbbbbbbbbbbbbbbbbb"⟩, "sci-fi"⟩ : Genre) ∈ duplicateStore.genres ∧
    sampleEnv.collationKey "sci-fi" = sampleEnv.collationKey (lengthValue (some "sci-fi")) ∧
    genre_create_post sampleEnv duplicateStore ⟨"ffffffffffffffffffffffff"⟩ ⟨some "sci-fi", none⟩ =
      ⟨duplicateStore, [Action.redirect "/catalog/genre/aaaaaaaaaaaaaaaaaaaaaaaa"]⟩ ∧
    sampleEnv.genreUrl ⟨"bbbbbbbbbbbbbbbbbbbbbbbb"⟩ = "/catalog/genre/bbbbbbbbbbbbbbbbbbbbbbbb" ∧
    genre_create_errors ⟨some "R&B", none⟩ = [] ∧
    genre_create_post sampleEnv ampersandStore ⟨"ffffffffffffffffffffffff"⟩ ⟨some "R&B", none⟩ =
      ⟨{ ampersandStore with genres :=
          [⟨⟨"aaaaaaaaaaaaaaaaaaaaaaaa"⟩, "R&B"⟩, ⟨⟨"ffffffffffffffffffffffff"⟩, "R&amp;B"⟩] },
        [Action.redirect "/catalog/genre/ffffffffffffffffffffffff"]⟩ := by
  decide

/-- C5 amended: for a request whose name passes validation, (1) if some stored
Genre has a name equal under the collation to the trimmed and escaped name, the
handler leaves the store unchanged and redirects to the URL of the first such
Genre in store order, which is that Genre when no other one matches; (2) a
following request whose name passes validation and is, trimmed and escaped,
equal under the collation to the first one (the same name, or one that differs
in case) changes nothing further and repeats the redirect of the first, so the
two submissions together add at most one Genre and redirect to the same URL. -/
theorem genre_create_post_existing (env : Env) (s : Store) (fresh : ObjectId)
    (body : GenreForm) (hv : genre_create_errors body = []) :
    (∀ g ∈ s.genres, env.collationKey g.name = env.collationKey (lengthValue body.name) →
      ∃ pre g0 post, s.genres = pre ++ g0 :: post ∧
        (∀ x ∈ pre, env.collationKey x.name ≠ env.collationKey (lengthValue body.name)) ∧
        env.collationKey g0.name = env.collationKey (lengthValue body.name) ∧
        genre_create_post env s fresh body = ⟨s, [Action.redirect (env.genreUrl g0._id)]⟩ ∧
        ((∀ x ∈ s.genres,
            env.collationKey x.name = env.collationKey (lengthValue body.name) → x = g) →
          g0 = g)) ∧
    (∀ (body2 : GenreForm) (fresh2 : ObjectId), genre_create_errors body2 = [] →
      env.collationKey (lengthValue body2.name) = env.collationKey (lengthValue body.name) →
      genre_create_post env (genre_create_post env s fresh body).store fresh2 body2 =
        genre_create_post env s fresh body ∧
      (genre_create_post env (genre_create_post env s fresh body).store fresh2
        body2).store.genres.length ≤ s.genres.length + 1) := by
  constructor
  · intro g hg hm
    cases hfind : Genre.findOne env s.genres (lengthValue body.name) with
    | none =>
      unfold Genre.findOne at hfind
      rw [List.find?_eq_none] at hfind
      exact absurd (by simpa using hm) (hfind g hg)
    | some g0 =>
      have hdec := hfind
      unfold Genre.findOne at hdec
      rw [List.find?_eq_some] at hdec
      obtain ⟨hp, pre, post, hsplit, hpre⟩ := hdec
      have hp0 : env.collationKey g0.name = env.collationKey (lengthValue body.name) := by
        simpa using hp
      refine ⟨pre, g0, post, hsplit, ?_, hp0, ?_, ?_⟩
      · intro x hx
        simpa using hpre x hx
      · simp only [genre_create_post, hv, hfind]
        simp
      · intro huniq
        have hmem : g0 ∈ s.genres := by
          rw [hsplit]
          simp
        exact huniq g0 hmem hp0
  · intro body2 fresh2 hv2 hkey
    cases hfind : Genre.findOne env s.genres (lengthValue body.name) with
    | some g0 =>
      have h1 : genre_create_post env s fresh body =
          ⟨s, [Action.redirect (env.genreUrl g0._id)]⟩ := by
        simp only [genre_create_post, hv, hfind]
        simp
      have hfind2 : Genre.findOne env s.genres (lengthValue body2.name) = some g0 := by
        rw [findOne_key_congr env s.genres _ _ hkey, hfind]
      have h2 : genre_create_post env s fresh2 body2 =
          ⟨s, [Action.redirect (env.genreUrl g0._id)]⟩ := by
        simp only [genre_create_post, hv2, hfind2]
        simp
      rw [h1]
      simp only [h2]
      exact ⟨trivial, Nat.le_succ _⟩
    | none =>
      have h1 : genre_create_post env s fresh body =
          ⟨{ s with genres := s.genres ++ [⟨fresh, lengthValue body.name⟩] },
            [Action.redirect (env.genreUrl fresh)]⟩ := by
        simp only [genre_create_post, hv, hfind]
        simp
      have hfind2 : Genre.findOne env (s.genres ++ [⟨fresh, lengthValue body.name⟩])
          (lengthValue body2.name) = some ⟨fresh, lengthValue body.name⟩ := by
        rw [findOne_key_congr env _ _ _ hkey]
        unfold Genre.findOne at hfind ⊢
        rw [List.find?_append, hfind]
        simp [List.find?]
      have h2 : genre_create_post env
          { s with genres := s.genres ++ [⟨fresh, lengthValue body.name⟩] } fresh2 body2 =
          ⟨{ s with genres := s.genres ++ [⟨fresh, lengthValue body.name⟩] },
            [Action.redirect (env.genreUrl fresh)]⟩ := by
        simp only [genre_create_post, hv2, hfind2]
        simp
      rw [h1]
      simp only [h2]
      refine ⟨trivial, ?_⟩
      simp

/-- C5 amended, at the store with two matching Genres: the request for the
name of the second Genre is redirected to the first; and from the sample store
the name `Sci-Fi` followed by the name `sci-fi` adds one Genre, named `Sci-Fi`,
and both requests are redirected to its URL. -/
theorem genre_create_post_existing_witness :
    (∃ pre g0 post, duplicateStore.genres = pre ++ g0 :: post ∧
        (∀ x ∈ pre,
          sampleEnv.collationKey x.name ≠ sampleEnv.collationKey (lengthValue (some "sci-fi"))) ∧
        sampleEnv.collationKey g0.name = sampleEnv.collationKey (lengthValue (some "sci-fi")) ∧
        genre_create_post sampleEnv duplicateStore ⟨"ffffffffffffffffffffffff"⟩
            ⟨some "sci-fi", none⟩ =
          ⟨duplicateStore, [Action.redirect (sampleEnv.genreUrl g0._id)]⟩ ∧
        ((∀ x ∈ duplicateStore.genres,
            sampleEnv.collationKey x.name = sampleEnv.collationKey (lengthValue (some "sci-fi")) →
            x = ⟨⟨"bbbbbbbbbbbbbbbbbbbbbbbb"⟩, "sci-fi"⟩) →
          g0 = ⟨⟨"bbbbbbbbbbbbbbbbbbbbbbbb"⟩, "sci-fi"⟩)) ∧
    genre_create_post sampleEnv sampleStore ⟨"ffffffffffffffffffffffff"⟩ ⟨some "Sci-Fi", none⟩ =
      ⟨{ sampleStore with genres := sampleStore.genres ++
          [⟨⟨"ffffffffffffffffffffffff"⟩, "Sci-Fi"⟩] },
        [Action.redirect "/catalog/genre/ffffffffffffffffffffffff"]⟩ ∧
    (genre_create_post sampleEnv
        (genre_create_post sampleEnv sampleStore ⟨"ffffffffffffffffffffffff"⟩
          ⟨some "Sci-Fi", none⟩).store
        ⟨"999999999999999999999999"⟩ ⟨some "sci-fi", none⟩ =
        genre_create_post sampleEnv sampleStore ⟨"ffffffffffffffffffffffff"⟩
          ⟨some "Sci-Fi", none⟩ ∧
      (genre_create_post sampleEnv
        (genre_create_post sampleEnv sampleStore ⟨"ffffffffffffffffffffffff"⟩
          ⟨some "Sci-Fi", none⟩).store
        ⟨"999999999999999999999999"⟩ ⟨some "sci-fi", none⟩).store.genres.length ≤
        sampleStore.genres.length + 1) :=
  ⟨(genre_create_post_existing sampleEnv duplicateStore ⟨"ffffffffffffffffffffffff"⟩
      ⟨some "sci-fi", none⟩ (by decide)).1 ⟨⟨"bbbbbbbbbbbbbbbbbbbbbbbb"⟩, "sci-fi"⟩
      (by decide) (by decide),
   by decide,
   (genre_create_post_existing sampleEnv sampleStore ⟨"ffffffffffffffffffffffff"⟩
      ⟨some "Sci-Fi", none⟩ (by decide)).2 ⟨some "sci-fi", none⟩
      ⟨"999999999999999999999999"⟩ (by decide) (by decide)⟩

/-! ## Creation of a BookInstance -/

/-- C9: for a request whose imprint is empty after trimming, the imprint
error is among the validation errors and nothing is inserted.  When the
submitted book is accepted as a reference the handler makes one call, the
render of `bookInstance_form` with the error list and the attempted entity.
When it is not accepted (as for a missing or empty book) the path `book` of the
attempted entity is undefined, reading `bookInstance.book._id` raises, and the
only call is `next` with that TypeError: no form is rendered. -/
theorem bookinstance_create_post_empty_imprint (env : Env) (s : Store) (fresh : ObjectId)
    (body : InstanceForm) (himp : trim (toStr body.imprint) = "") :
    (⟨"imprint", "Imprint must be specified", ""⟩ : FieldError) ∈
      bookinstance_create_errors env body ∧
    (∀ r, env.castObjectId (lengthValue body.book) = some r →
      bookinstance_create_post env s fresh body =
        ⟨s, [Action.render "bookInstance_form"
          [("title", Local.text "Create Book Instance"),
           ("book_list", Local.bookList (Book.findTitles s.books)),
           ("selected_book", Local.selected r),
           ("errors", Local.errors (bookinstance_create_errors env body)),
           ("bookinstance", Local.newInstance
             ⟨fresh, some r, Val.str "", Val.str (escape (toStr body.status)),
               castDue env (dueBackValue env body.due_back)⟩)]]⟩) ∧
    (env.castObjectId (lengthValue body.book) = none →
      bookinstance_create_post env s fresh body =
        ⟨s, [Action.next (Err.typeError "_id")]⟩) := by
  have hmem : (⟨"imprint", "Imprint must be specified", ""⟩ : FieldError) ∈
      bookinstance_create_errors env body := by
    have hlen : isLength "" 1 = false := by decide
    simp [bookinstance_create_errors, lengthErrors, himp, hlen]
  have hne : bookinstance_create_errors env body ≠ [] := List.ne_nil_of_mem hmem
  have hesc : lengthValue body.imprint = "" := by
    simp only [lengthValue, himp]
    rfl
  refine ⟨hmem, fun r hr => ?_, fun hr => ?_⟩
  · simp only [bookinstance_create_post, hne, BookInstance.new, bookinstance_create_fields,
      castRef, hr, hesc]
    simp [hne]
  · simp only [bookinstance_create_post, hne, BookInstance.new, bookinstance_create_fields,
      castRef, hr]
    simp [hne]

/-- C9 at a request without a book and with an empty imprint: the handler
forwards a TypeError and renders nothing. -/
theorem bookinstance_create_post_empty_imprint_witness :
    bookinstance_create_post sampleEnv sampleStore ⟨"ffffffffffffffffffffffff"⟩
        ⟨none, some "", some "Available", none⟩ =
      ⟨sampleStore, [Action.next (Err.typeError "_id")]⟩ :=
  (bookinstance_create_post_empty_imprint sampleEnv sampleStore ⟨"ffffffffffffffffffffffff"⟩
    ⟨none, some "", some "Available", none⟩ (by decide)).2.2 (by decide)

/-- C7 as stated fails: the book `xyz` passes its chain, as does the imprint,
but the model does not accept it as a reference.  Without a `due_back` the
validation passes, `save()` rejects the copy, nothing is inserted and no
redirect is issued; with a `due_back` that is no date the validation fails and
the handler raises before it renders the form. -/
theorem bookinstance_create_post_due_back_counterexample :
    bookinstance_create_errors sampleEnv ⟨some "xyz", some "Gollancz", some "Loaned", none⟩ =
      [] ∧
    bookinstance_create_post sampleEnv sampleStore ⟨"ffffffffffffffffffffffff"⟩
        ⟨some "xyz", some "Gollancz", some "Loaned", none⟩ =
      ⟨sampleStore, [Action.next (Err.validation "book")]⟩ ∧
    bookinstance_create_errors sampleEnv
        ⟨some "xyz", some "Gollancz", some "Loaned", some "next tuesday"⟩ =
      [⟨"due_back", "Invalid date", "next tuesday"⟩] ∧
    bookinstance_create_post sampleEnv sampleStore ⟨"ffffffffffffffffffffffff"⟩
        ⟨some "xyz", some "Gollancz", some "Loaned", some "next tuesday"⟩ =
      ⟨sampleStore, [Action.next (Err.typeError "_id")]⟩ := by
  decide

/-- C7 amended: for a request whose book and imprint pass their chains and
whose book the model accepts as a reference, (1) a `due_back` that is present,
not empty and not an ISO 8601 date makes the handler render `bookInstance_form`
with the single error on `due_back` with message `Invalid date` and leave the
store unchanged; (2) an absent `due_back` makes the handler append exactly one
BookInstance, with the fresh identifier and no `due_back`, and redirect to its
URL; (3) an empty `due_back` does the same, the copy holding a null
`due_back`. -/
theorem bookinstance_create_post_due_back (env : Env) (s : Store) (fresh r : ObjectId)
    (body : InstanceForm)
    (hb : isLength (trim (toStr body.book)) 1 = true)
    (hc : env.castObjectId (lengthValue body.book) = some r)
    (hi : isLength (trim (toStr body.imprint)) 1 = true) :
    (∀ d, body.due_back = some d → d ≠ "" → env.isISO8601 d = false →
      bookinstance_create_post env s fresh body =
        ⟨s, [Action.render "bookInstance_form"
          [("title", Local.text "Create Book Instance"),
           ("book_list", Local.bookList (Book.findTitles s.books)),
           ("selected_book", Local.selected r),
           ("errors", Local.errors [⟨"due_back", "Invalid date", d⟩]),
           ("bookinstance", Local.newInstance
             ⟨fresh, some r, Val.str (lengthValue body.imprint),
               Val.str (escape (toStr body.status)), toDate env d⟩)]]⟩) ∧
    (body.due_back = none →
      bookinstance_create_post env s fresh body =
        ⟨{ s with bookinstances := s.bookinstances ++
            [⟨fresh, some r, Val.str (lengthValue body.imprint),
              Val.str (escape (toStr body.status)), Val.undefined⟩] },
          [Action.redirect (env.bookInstanceUrl fresh)]⟩) ∧
    (body.due_back = some "" →
      bookinstance_create_post env s fresh body =
        ⟨{ s with bookinstances := s.bookinstances ++
            [⟨fresh, some r, Val.str (lengthValue body.imprint),
              Val.str (escape (toStr body.status)), Val.null⟩] },
          [Action.redirect (env.bookInstanceUrl fresh)]⟩) := by
  refine ⟨fun d hd hne hiso => ?_, fun h => ?_, fun h => ?_⟩
  · simp [bookinstance_create_post, bookinstance_create_errors, lengthErrors, dueBackErrors,
      dueBackValue, BookInstance.new, bookinstance_create_fields, castRef, hb, hc, hi, hd, hne,
      hiso, castDue_toDate]
  · simp [bookinstance_create_post, bookinstance_create_errors, lengthErrors, dueBackErrors,
      dueBackValue, BookInstance.new, bookinstance_create_fields, castRef, hb, hc, hi, h,
      castDue]
  · simp [bookinstance_create_post, bookinstance_create_errors, lengthErrors, dueBackErrors,
      dueBackValue, BookInstance.new, bookinstance_create_fields, castRef, hb, hc, hi, h,
      castDue]

/-- C7 amended, at requests for the sample Book: a `due_back` that is not a
date is reported, an absent one lets the copy be inserted without a date, an
empty one lets it be inserted with a null date. -/
theorem bookinstance_create_post_due_back_witness :
    bookinstance_create_post sampleEnv sampleStore ⟨"ffffffffffffffffffffffff"⟩
        ⟨some "cccccccccccccccccccccccc", some " Gollancz ", some "Loaned",
          some "next tuesday"⟩ =
      ⟨sampleStore, [Action.render "bookInstance_form"
        [("title", Local.text "Create Book Instance"),
         ("book_list", Local.bookList [⟨⟨"cccccccccccccccccccccccc"⟩, "The Hobbit"⟩]),
         ("selected_book", Local.selected ⟨"cccccccccccccccccccccccc"⟩),
         ("errors", Local.errors [⟨"due_back", "Invalid date", "next tuesday"⟩]),
         ("bookinstance", Local.newInstance
           ⟨⟨"ffffffffffffffffffffffff"⟩, some ⟨"cccccccccccccccccccccccc"⟩,
             Val.str "Gollancz", Val.str "Loaned", Val.null⟩)]]⟩ ∧
    bookinstance_create_post sampleEnv sampleStore ⟨"ffffffffffffffffffffffff"⟩
        ⟨some "cccccccccccccccccccccccc", some " Gollancz ", some "Loaned", none⟩ =
      ⟨{ sampleStore with bookinstances := sampleStore.bookinstances ++
          [⟨⟨"ffffffffffffffffffffffff"⟩, some ⟨"cccccccccccccccccccccccc"⟩,
            Val.str "Gollancz", Val.str "Loaned", Val.undefined⟩] },
        [Action.redirect "/catalog/bookinstance/ffffffffffffffffffffffff"]⟩ ∧
    bookinstance_create_post sampleEnv sampleStore ⟨"ffffffffffffffffffffffff"⟩
        ⟨some "cccccccccccccccccccccccc", some " Gollancz ", some "Loaned", some ""⟩ =
      ⟨{ sampleStore with bookinstances := sampleStore.bookinstances ++
          [⟨⟨"ffffffffffffffffffffffff"⟩, some ⟨"cccccccccccccccccccccccc"⟩,
            Val.str "Gollancz", Val.str "Loaned", Val.null⟩] },
        [Action.redirect "/catalog/bookinstance/ffffffffffffffffffffffff"]⟩ :=
  ⟨(bookinstance_create_post_due_back sampleEnv sampleStore ⟨"ffffffffffffffffffffffff"⟩
      ⟨"cccccccccccccccccccccccc"⟩
      ⟨some "cccccccccccccccccccccccc", some " Gollancz ", some "Loaned", some "next tuesday"⟩
      (by decide) (by decide) (by decide)).1 "next tuesday" rfl (by decide) (by decide),
   (bookinstance_create_post_due_back sampleEnv sampleStore ⟨"ffffffffffffffffffffffff"⟩
      ⟨"cccccccccccccccccccccccc"⟩
      ⟨some "cccccccccccccccccccccccc", some " Gollancz ", some "Loaned", none⟩
      (by decide) (by decide) (by decide)).2.1 rfl,
   (bookinstance_create_post_due_back sampleEnv sampleStore ⟨"ffffffffffffffffffffffff"⟩
      ⟨"cccccccccccccccccccccccc"⟩
      ⟨some "cccccccccccccccccccccccc", some " Gollancz ", some "Loaned", some ""⟩
      (by decide) (by decide) (by decide)).2.2 rfl⟩

/-! ## Update of a BookInstance -/

/-- C4 as stated fails: the request for the copy on loan submits the book
`xyz` and the due date `garbage` with a valid imprint.  It passes the
validation of the update handler and is redirected to the URL of the copy, but
the stored copy keeps its book and its due date: neither submitted value is
carried. -/
theorem bookinstance_update_post_fields_counterexample :
    bookinstance_update_errors ⟨some "xyz", some "Gollancz", some "Available", some "garbage"⟩ =
      [] ∧
    bookinstance_update_post sampleEnv loanStore ⟨"eeeeeeeeeeeeeeeeeeeeeeee"⟩
        ⟨some "xyz", some "Gollancz", some "Available", some "garbage"⟩ =
      ⟨{ loanStore with bookinstances :=
          [⟨⟨"eeeeeeeeeeeeeeeeeeeeeeee"⟩, some ⟨"cccccccccccccccccccccccc"⟩,
            Val.str "Gollancz", Val.str "Available", Val.date 1769817600000⟩] },
        [Action.redirect "/catalog/bookinstance/eeeeeeeeeeeeeeeeeeeeeeee"]⟩ := by
  decide

/-- C4 amended: in a store with distinct identifiers that holds a BookInstance
with the route identifier, a request that passes the validation of
`bookinstance_update_post` is answered by one redirect to the URL of that
identifier; the sequence of BookInstance identifiers and the other collections
are unchanged; exactly one BookInstance carries the route identifier, and it
holds the trimmed and escaped imprint, the submitted status, the submitted book
when the model accepts it as a reference, and the submitted due date as the
date the model casts it to (null for the empty string). -/
theorem bookinstance_update_post_keeps_id (env : Env) (s : Store) (id : ObjectId)
    (body : InstanceForm) (old : BookInstance)
    (hnodup : (s.bookinstances.map BookInstance._id).Nodup)
    (hold : old ∈ s.bookinstances) (hid : old._id = id)
    (hv : bookinstance_update_errors body = []) :
    (bookinstance_update_post env s id body).actions =
      [Action.redirect (env.bookInstanceUrl id)] ∧
    (bookinstance_update_post env s id body).store.bookinstances.map BookInstance._id =
      s.bookinstances.map BookInstance._id ∧
    (bookinstance_update_post env s id body).store.genres = s.genres ∧
    (bookinstance_update_post env s id body).store.books = s.books ∧
    (bookinstance_update_post env s id body).store.authors = s.authors ∧
    ∃ e, (bookinstance_update_post env s id body).store.bookinstances.filter
        (fun b => decide (b._id = id)) = [e] ∧
      e._id = id ∧
      e.imprint = Val.str (escape (trim (toStr body.imprint))) ∧
      (∀ st, body.status = some st → e.status = Val.str st) ∧
      (∀ b r, body.book = some b → env.castObjectId b = some r → e.book = some r) ∧
      (∀ d ms, body.due_back = some d → d ≠ "" → env.castDate d = some ms →
        e.due_back = Val.date ms) ∧
      (body.due_back = some "" → e.due_back = Val.null) := by
  obtain ⟨b0, hfind, hb0⟩ := findById_of_mem id old s.bookinstances hold hid
  have hout : bookinstance_update_post env s id body =
      ⟨{ s with bookinstances := (BookInstance.updateFirst id
          (BookInstance.new env id (bookinstance_update_fields body)) s.bookinstances) },
        [Action.redirect (env.bookInstanceUrl id)]⟩ := by
    simp [bookinstance_update_post, hv, BookInstance.findByIdAndUpdate, hfind, hb0]
  have hupd : (BookInstance.new env id (bookinstance_update_fields body))._id = id := rfl
  rw [hout]
  refine ⟨rfl, updateFirst_ids id _ hupd s.bookinstances, rfl, rfl, rfl,
    BookInstance.applySet old (BookInstance.new env id (bookinstance_update_fields body)),
    updateFirst_filter id _ old hupd s.bookinstances hnodup hold hid, rfl, ?_, ?_, ?_, ?_, ?_⟩
  · simp [BookInstance.applySet, BookInstance.new, bookinstance_update_fields, lengthValue]
  · intro st hst
    simp [BookInstance.applySet, BookInstance.new, bookinstance_update_fields, rawVal, hst]
  · intro b r hb hr
    simp [BookInstance.applySet, BookInstance.new, bookinstance_update_fields, castRef, rawVal,
      hb, hr]
  · intro d ms hd hne hms
    simp [BookInstance.applySet, BookInstance.new, bookinstance_update_fields, rawVal, hd,
      castDue, hne, hms]
  · intro hd
    simp [BookInstance.applySet, BookInstance.new, bookinstance_update_fields, rawVal, hd,
      castDue]

/-- C4 amended, at the sample store: the update of the sample copy keeps its
identifier and stores the submitted fields, the due date as a date. -/
theorem bookinstance_update_post_keeps_id_witness :
    bookinstance_update_post sampleEnv sampleStore ⟨"eeeeeeeeeeeeeeeeeeeeeeee"⟩
        ⟨some "cccccccccccccccccccccccc", some " Gollancz ", some "Loaned",
          some "2026-01-31"⟩ =
      ⟨{ sampleStore with bookinstances :=
          [⟨⟨"eeeeeeeeeeeeeeeeeeeeeeee"⟩, some ⟨"cccccccccccccccccccccccc"⟩,
            Val.str "Gollancz", Val.str "Loaned", Val.date 1769817600000⟩] },
        [Action.redirect "/catalog/bookinstance/eeeeeeeeeeeeeeeeeeeeeeee"]⟩ ∧
    (bookinstance_update_post sampleEnv sampleStore ⟨"eeeeeeeeeeeeeeeeeeeeeeee"⟩
        ⟨some "cccccccccccccccccccccccc", some " Gollancz ", some "Loaned",
          some "2026-01-31"⟩).store.bookinstances.map BookInstance._id =
      sampleStore.bookinstances.map BookInstance._id :=
  ⟨by decide,
   (bookinstance_update_post_keeps_id sampleEnv sampleStore ⟨"eeeeeeeeeeeeeeeeeeeeeeee"⟩
      ⟨some "cccccccccccccccccccccccc", some " Gollancz ", some "Loaned", some "2026-01-31"⟩
      ⟨⟨"eeeeeeeeeeeeeeeeeeeeeeee"⟩, some ⟨"cccccccccccccccccccccccc"⟩,
        Val.str "Allen and Unwin, 1937", Val.str "Available", Val.undefined⟩
      (by decide) (by decide) rfl (by decide)).2.1⟩

/-- C2 as stated fails: for a request with an empty book and a valid imprint
the create chains report the error on `book` while the update chain reports
nothing, and the create chains escape the status while the update handler
keeps it as submitted; for a request with an empty imprint both report an
error on `imprint`, with different messages. -/
theorem bookinstance_update_validation_counterexample :
    bookinstance_create_errors sampleEnv ⟨some "", some "x", some "<b>", none⟩ =
      [⟨"book", "Book must be specified", ""⟩] ∧
    bookinstance_update_errors ⟨some "", some "x", some "<b>", none⟩ = [] ∧
    (bookinstance_create_fields sampleEnv ⟨some "", some "x", some "<b>", none⟩).status =
      Val.str "&lt;b&gt;" ∧
    (bookinstance_update_fields ⟨some "", some "x", some "<b>", none⟩).status =
      Val.str "<b>" ∧
    bookinstance_create_errors sampleEnv
        ⟨some "cccccccccccccccccccccccc", some " ", some "Loaned", none⟩ =
      [⟨"imprint", "Imprint must be specified", ""⟩] ∧
    bookinstance_update_errors ⟨some "cccccccccccccccccccccccc", some " ", some "Loaned", none⟩ =
      [⟨"imprint", "Imprint must not be empty.", ""⟩] := by
  decide

/-- C2 amended: `bookinstance_update_post` applies the imprint chain of
`bookinstance_create_post`: it reports an error on `imprint` exactly when the
create chains report one; its imprint errors are those of the create chains
with the message `Imprint must not be empty.` in place of
`Imprint must be specified`; and the imprint it builds the entity from is the
trimmed and escaped imprint the create handler uses. -/
theorem bookinstance_update_validation_imprint (env : Env) (body : InstanceForm) :
    ((bookinstance_update_errors body).filter (fun e => e.path == "imprint") = [] ↔
      (bookinstance_create_errors env body).filter (fun e => e.path == "imprint") = []) ∧
    (bookinstance_update_errors body).filter (fun e => e.path == "imprint") =
      ((bookinstance_create_errors env body).filter (fun e => e.path == "imprint")).map
        (fun e => ⟨e.path, "Imprint must not be empty.", e.value⟩) ∧
    (bookinstance_update_fields body).imprint =
      (bookinstance_create_fields env body).imprint := by
  have hbook : (lengthErrors "book" "Book must be specified" 1 body.book).filter
      (fun e => e.path == "imprint") = [] := by
    unfold lengthErrors
    split
    · rfl
    · rw [List.filter_cons]
      have : (("book" : String) == "imprint") = false := by decide
      simp [this]
  have hdue : (dueBackErrors env body.due_back).filter (fun e => e.path == "imprint") = [] := by
    have hp : (("due_back" : String) == "imprint") = false := by decide
    cases hd : body.due_back with
    | none => rfl
    | some d =>
      unfold dueBackErrors
      by_cases h1 : d = ""
      · simp [h1]
      · by_cases h2 : env.isISO8601 d = true
        · simp [h1, h2]
        · simp [h1, h2, hp]
  have himp : ∀ msg, (lengthErrors "imprint" msg 1 body.imprint).filter
      (fun e => e.path == "imprint") = lengthErrors "imprint" msg 1 body.imprint := by
    intro msg
    unfold lengthErrors
    split
    · rfl
    · simp
  have hfilter : (bookinstance_create_errors env body).filter (fun e => e.path == "imprint") =
      lengthErrors "imprint" "Imprint must be specified" 1 body.imprint := by
    unfold bookinstance_create_errors
    rw [List.filter_append, List.filter_append, hbook, hdue, himp]
    simp
  have hupd : (bookinstance_update_errors body).filter (fun e => e.path == "imprint") =
      lengthErrors "imprint" "Imprint must not be empty." 1 body.imprint := by
    unfold bookinstance_update_errors
    exact himp _
  rw [hfilter, hupd]
  refine ⟨?_, ?_, rfl⟩
  · unfold lengthErrors
    split <;> simp
  · unfold lengthErrors
    split <;> simp

end LocalLibrary
